import Mathlib

/-!
Verification model of `src/plugins/chat/chat_stream.py` (MaiMBot).

The file embeds the chat-stream module shallowly in Lean: pure Python
functions become Lean functions, the `ChatManager` state (in-memory
`streams` dict plus the `chat_streams` Mongo collection) becomes an
explicit record threaded through each operation, and `int(time.time())`
becomes an explicit `now : Nat` argument.  Store writes are counted in
the state so that "a write was issued" is observable.
-/

namespace ChatStreamModel

/-! ## Identity inputs

`UserInfo` and `GroupInfo` live in `message_base.py`, which is not part
of the sources under verification; they are modelled from the spec. -/

/-- A Python identifier value: the spec allows "string or integer,
coerced to string". -/
inductive PyId where
  | str (s : String)
  | int (n : Int)
deriving DecidableEq, Repr

/-- Python `str()` on a `PyId`. -/
def PyId.pyStr : PyId → String
  | .str s => s
  | .int n => toString n

/-- Python `str()` on an optional value: `str(None)` is `"None"`. -/
def pyStrOpt : Option PyId → String
  | none => "None"
  | some v => v.pyStr

/-- Modelled from the spec: `message_base.UserInfo` — "structured
identity of the primary user (at minimum a unique user identifier)".
The user identifier is optional at the Python level (the code
deserializes it by permissive keyword expansion `UserInfo(**d)`, so an
absent field is representable and defaults to `None`). -/
structure UserInfo where
  user_id : Option PyId
  user_nickname : Option String
deriving DecidableEq, Repr

/-- Modelled from the spec: `message_base.GroupInfo` — "optional
structured identity of a group/channel context". -/
structure GroupInfo where
  group_id : PyId
  group_name : Option String
deriving DecidableEq, Repr

/-! ## MD5

`_generate_stream_id` returns `hashlib.md5(key.encode()).hexdigest()`.
The hash is embedded in full so that the derived identifier really is
the 32-character hexadecimal MD5 digest of the key. -/

/-- UTF-8 encoding of one code point (Python `str.encode()`). -/
def utf8Bytes (c : Nat) : List Nat :=
  if c < 0x80 then [c]
  else if c < 0x800 then
    [0xC0 ||| (c >>> 6), 0x80 ||| (c &&& 0x3F)]
  else if c < 0x10000 then
    [0xE0 ||| (c >>> 12), 0x80 ||| ((c >>> 6) &&& 0x3F), 0x80 ||| (c &&& 0x3F)]
  else
    [0xF0 ||| (c >>> 18), 0x80 ||| ((c >>> 12) &&& 0x3F),
     0x80 ||| ((c >>> 6) &&& 0x3F), 0x80 ||| (c &&& 0x3F)]

/-- UTF-8 bytes of a string. -/
def strBytes (s : String) : List Nat :=
  (s.data.map (fun c => utf8Bytes c.toNat)).flatten

/-- Truncation to a 32-bit word. -/
def mod32 (x : Nat) : Nat := x % 4294967296

/-- 32-bit left rotation (the operand is a 32-bit word). -/
def rotl32 (x n : Nat) : Nat := mod32 ((x <<< n) ||| (x >>> (32 - n)))

/-- The MD5 per-step shift amounts. -/
def mdS : List Nat :=
  [7, 12, 17, 22, 7, 12, 17, 22, 7, 12, 17, 22, 7, 12, 17, 22,
   5, 9, 14, 20, 5, 9, 14, 20, 5, 9, 14, 20, 5, 9, 14, 20,
   4, 11, 16, 23, 4, 11, 16, 23, 4, 11, 16, 23, 4, 11, 16, 23,
   6, 10, 15, 21, 6, 10, 15, 21, 6, 10, 15, 21, 6, 10, 15, 21]

/-- The MD5 sine-derived constants. -/
def mdK : List Nat :=
  [0xd76aa478, 0xe8c7b756, 0x242070db, 0xc1bdceee,
   0xf57c0faf, 0x4787c62a, 0xa8304613, 0xfd469501,
   0x698098d8, 0x8b44f7af, 0xffff5bb1, 0x895cd7be,
   0x6b901122, 0xfd987193, 0xa679438e, 0x49b40821,
   0xf61e2562, 0xc040b340, 0x265e5a51, 0xe9b6c7aa,
   0xd62f105d, 0x02441453, 0xd8a1e681, 0xe7d3fbc8,
   0x21e1cde6, 0xc33707d6, 0xf4d50d87, 0x455a14ed,
   0xa9e3e905, 0xfcefa3f8, 0x676f02d9, 0x8d2a4c8a,
   0xfffa3942, 0x8771f681, 0x6d9d6122, 0xfde5380c,
   0xa4beea44, 0x4bdecfa9, 0xf6bb4b60, 0xbebfbc70,
   0x289b7ec6, 0xeaa127fa, 0xd4ef3085, 0x04881d05,
   0xd9d4d039, 0xe6db99e5, 0x1fa27cf8, 0xc4ac5665,
   0xf4292244, 0x432aff97, 0xab9423a7, 0xfc93a039,
   0x655b59c3, 0x8f0ccc92, 0xffeff47d, 0x85845dd1,
   0x6fa87e4f, 0xfe2ce6e0, 0xa3014314, 0x4e0811a1,
   0xf7537e82, 0xbd3af235, 0x2ad7d2bb, 0xeb86d391]

/-- Little-endian byte decomposition, fixed width. -/
def leBytes : Nat → Nat → List Nat
  | 0, _ => []
  | n + 1, x => (x % 256) :: leBytes n (x / 256)

/-- Little-endian word from a byte list. -/
def leWord (bs : List Nat) : Nat :=
  bs.foldr (fun b acc => acc * 256 + b) 0

/-- MD5 padding: `0x80`, zeros to 56 mod 64, then the 64-bit
little-endian bit length. -/
def md5Pad (msg : List Nat) : List Nat :=
  let len := msg.length
  let k := (120 - (len + 1) % 64) % 64
  msg ++ [0x80] ++ List.replicate k 0 ++ leBytes 8 ((len * 8) % 2 ^ 64)

/-- Split into 64-byte blocks (the input length is the fuel). -/
def chunk64Go : Nat → List Nat → List (List Nat)
  | 0, _ => []
  | _, [] => []
  | fuel + 1, l => l.take 64 :: chunk64Go fuel (l.drop 64)

/-- Split a byte list into 64-byte blocks. -/
def chunk64 (l : List Nat) : List (List Nat) := chunk64Go l.length l

/-- The sixteen little-endian message words of one 64-byte block. -/
def blockWords (b : List Nat) : List Nat :=
  (List.range 16).map (fun i => leWord ((b.drop (4 * i)).take 4))

/-- One of the 64 MD5 steps: `i` is the step index, `w` the message
words, `(a, b, c, d)` the running state. -/
def md5Step (w : List Nat) (st : Nat × Nat × Nat × Nat) (i : Nat) :
    Nat × Nat × Nat × Nat :=
  let (a, b, c, d) := st
  let fg : Nat × Nat :=
    if i < 16 then ((b &&& c) ||| ((b ^^^ 0xFFFFFFFF) &&& d), i)
    else if i < 32 then ((d &&& b) ||| ((d ^^^ 0xFFFFFFFF) &&& c), (5 * i + 1) % 16)
    else if i < 48 then (b ^^^ c ^^^ d, (3 * i + 5) % 16)
    else (c ^^^ (b ||| (d ^^^ 0xFFFFFFFF)), (7 * i) % 16)
  let f := mod32 (fg.1 + a + mdK.getD i 0 + w.getD fg.2 0)
  (d, mod32 (b + rotl32 f (mdS.getD i 0)), b, c)

/-- Process one 64-byte block. -/
def md5Block (st : Nat × Nat × Nat × Nat) (blk : List Nat) :
    Nat × Nat × Nat × Nat :=
  let (a0, b0, c0, d0) := st
  let (a, b, c, d) := (List.range 64).foldl (md5Step (blockWords blk)) st
  (mod32 (a0 + a), mod32 (b0 + b), mod32 (c0 + c), mod32 (d0 + d))

/-- The sixteen digest bytes of a byte message. -/
def md5Bytes (msg : List Nat) : List Nat :=
  let st := (chunk64 (md5Pad msg)).foldl md5Block
    (0x67452301, 0xefcdab89, 0x98badcfe, 0x10325476)
  leBytes 4 st.1 ++ leBytes 4 st.2.1 ++ leBytes 4 st.2.2.1 ++ leBytes 4 st.2.2.2

/-- Lower-case hexadecimal digit. -/
def hexDigit (n : Nat) : Char :=
  if n < 10 then Char.ofNat (48 + n) else Char.ofNat (87 + n)

/-- Two hexadecimal characters of one byte. -/
def byteHex (b : Nat) : List Char := [hexDigit (b / 16 % 16), hexDigit (b % 16)]

/-- Model of `hashlib.md5(s.encode()).hexdigest()`. -/
def md5Hex (s : String) : String :=
  String.mk ((md5Bytes (strBytes s)).map byteHex).flatten

/-! ## `ChatManager._generate_stream_id` -/

/-- The third key component: `str(group_info.group_id) if group_info
else "private"`. -/
def groupComponent : Option GroupInfo → String
  | some g => g.group_id.pyStr
  | none => "private"

/-- Model of `ChatManager._generate_stream_id`: join platform, `str(user_id)`
and the group component with `"_"`, then take the MD5 hexdigest. -/
def generateStreamId (platform : String) (user_info : UserInfo)
    (group_info : Option GroupInfo) : String :=
  let components := [platform, pyStrOpt user_info.user_id, groupComponent group_info]
  md5Hex (String.intercalate "_" components)

/-! ## The `ChatStream` record and its dict form

`UserInfo.to_dict` / `UserInfo(**d)` live in `message_base.py` (absent
from the sources).  Modelled from the spec: the serialized shape is
"userInfo: {...}" — the record's own fields as a mapping — and
deserialization rebuilds the record from those fields, so the pair is
modelled as the identity on `UserInfo` (and likewise `GroupInfo`). -/

/-- The document stored in the `chat_streams` collection: the dict
built by `ChatStream.to_dict` / read back by `ChatStream.from_dict`.
The two timestamps are optional because `from_dict` reads them with
`dict.get` and a default. -/
structure StreamData where
  stream_id : String
  platform : String
  user_info : Option UserInfo
  group_info : Option GroupInfo
  create_time : Option Nat
  last_active_time : Option Nat
deriving DecidableEq, Repr

/-- The in-memory `ChatStream` object. `saved` is the negated dirty
flag: `saved = false` means the record has unpersisted state. -/
structure ChatStream where
  stream_id : String
  platform : String
  user_info : Option UserInfo
  group_info : Option GroupInfo
  create_time : Nat
  last_active_time : Nat
  saved : Bool
deriving DecidableEq, Repr

/-- Model of `ChatStream.__init__`: `create_time = data.get("create_time", now)`
when a `data` dict is supplied, else `now`; `last_active_time`
defaults to `create_time`; `saved = False` always. -/
def ChatStream.init (now : Nat) (stream_id platform : String)
    (user_info : Option UserInfo) (group_info : Option GroupInfo)
    (data : Option StreamData) : ChatStream :=
  let create_time := match data with
    | some d => d.create_time.getD now
    | none => now
  let last_active_time := match data with
    | some d => d.last_active_time.getD create_time
    | none => create_time
  ⟨stream_id, platform, user_info, group_info, create_time, last_active_time, false⟩

/-- Model of `ChatStream.to_dict`. -/
def ChatStream.to_dict (s : ChatStream) : StreamData :=
  ⟨s.stream_id, s.platform, s.user_info, s.group_info,
   some s.create_time, some s.last_active_time⟩

/-- Model of `ChatStream.from_dict`: rebuild the nested infos, then call
`__init__` with the dict as `data`. -/
def ChatStream.from_dict (now : Nat) (d : StreamData) : ChatStream :=
  ChatStream.init now d.stream_id d.platform d.user_info d.group_info (some d)

/-- Model of `ChatStream.update_active_time`. -/
def ChatStream.update_active_time (now : Nat) (s : ChatStream) : ChatStream :=
  { s with last_active_time := now, saved := false }

/-! ## Association lists

Both the in-memory `streams` dict and the `chat_streams` collection
(whose `stream_id` carries a unique index) are modelled as association
lists with insert-or-replace. -/

/-- First value stored under a key. -/
def lookupA {β : Type} : List (String × β) → String → Option β
  | [], _ => none
  | (k', v) :: t, k => if k' = k then some v else lookupA t k

/-- Insert-or-replace under a key (Python dict assignment; Mongo
`update_one` with `upsert=True` under the unique `stream_id` index). -/
def upsertA {β : Type} : List (String × β) → String → β → List (String × β)
  | [], k, v => [(k, v)]
  | (k', v') :: t, k, v =>
      if k' = k then (k, v) :: t else (k', v') :: upsertA t k v

/-! ## The `ChatManager` state -/

/-- The mutable state of `ChatManager`: the in-memory `streams` dict,
the `chat_streams` collection, and a count of `update_one` calls
issued (so "a store write happened" is observable). -/
structure ChatManager where
  streams : List (String × ChatStream)
  db : List (String × StreamData)
  writes : Nat
deriving DecidableEq, Repr

/-- Model of `ChatManager._save_stream`: skip the store write when the stream
is already saved; otherwise upsert its dict keyed by `stream_id` and
mark it saved.  Returns the (possibly updated) stream object alongside
the new state, mirroring the in-place mutation of `stream.saved`. -/
def saveStream (mgr : ChatManager) (s : ChatStream) : ChatStream × ChatManager :=
  if s.saved then (s, mgr)
  else ({ s with saved := true },
        { mgr with db := upsertA mgr.db s.stream_id s.to_dict,
                   writes := mgr.writes + 1 })

/-- The shared update block of `get_or_create_stream`'s hit branches:
`stream.user_info = user_info`, `stream.group_info = group_info` only
when one was supplied (Python truthiness on the object), then
`stream.update_active_time()`. -/
def hitUpdate (now : Nat) (user_info : UserInfo) (group_info : Option GroupInfo)
    (stream0 : ChatStream) : ChatStream :=
  ChatStream.update_active_time now
    { stream0 with
      user_info := some user_info,
      group_info := match group_info with
        | some g => some g
        | none => stream0.group_info }

/-- Model of `ChatManager.get_or_create_stream`.  The three branches of the
source in order: in-memory hit (which returns without persisting),
store hit, creation; the latter two insert into memory and persist. -/
def getOrCreateStream (now : Nat) (mgr : ChatManager) (platform : String)
    (user_info : UserInfo) (group_info : Option GroupInfo) :
    ChatStream × ChatManager :=
  let stream_id := generateStreamId platform user_info group_info
  match lookupA mgr.streams stream_id with
  | some stream0 =>
      let stream := hitUpdate now user_info group_info stream0
      (stream, { mgr with streams := upsertA mgr.streams stream_id stream })
  | none =>
      let stream := match lookupA mgr.db stream_id with
        | some data => hitUpdate now user_info group_info (ChatStream.from_dict now data)
        | none =>
            ChatStream.init now stream_id platform (some user_info) group_info none
      let mgr1 := { mgr with streams := upsertA mgr.streams stream_id stream }
      let sm := saveStream mgr1 stream
      (sm.1, { sm.2 with streams := upsertA sm.2.streams stream_id sm.1 })

/-- Model of `ChatManager.get_stream`: pure in-memory lookup. -/
def getStream (mgr : ChatManager) (stream_id : String) : Option ChatStream :=
  lookupA mgr.streams stream_id

/-- Model of `ChatManager.get_stream_by_info`: derive the id, then look up in
memory only. -/
def getStreamByInfo (mgr : ChatManager) (platform : String)
    (user_info : UserInfo) (group_info : Option GroupInfo) : Option ChatStream :=
  lookupA mgr.streams (generateStreamId platform user_info group_info)

/-- Body of `ChatManager._save_all_streams`: fold `_save_stream` over
the entries of `streams` in order, updating each entry's `saved` flag
in place. -/
def saveAllGo : List (String × ChatStream) → List (String × StreamData) → Nat →
    List (String × ChatStream) × List (String × StreamData) × Nat
  | [], db, w => ([], db, w)
  | (k, s) :: t, db, w =>
      if s.saved then
        let r := saveAllGo t db w
        ((k, s) :: r.1, r.2)
      else
        let r := saveAllGo t (upsertA db s.stream_id s.to_dict) (w + 1)
        ((k, { s with saved := true }) :: r.1, r.2)

/-- Model of `ChatManager._save_all_streams`. -/
def saveAllStreams (mgr : ChatManager) : ChatManager :=
  let r := saveAllGo mgr.streams mgr.db mgr.writes
  ⟨r.1, r.2.1, r.2.2⟩

/-- Model of `ChatManager.load_all_streams`: for every stored document, build a
`ChatStream` with `from_dict` and store it in `streams` under the
rebuilt stream's own `stream_id`, overwriting any existing entry. -/
def loadAllStreams (now : Nat) (mgr : ChatManager) : ChatManager :=
  let step := fun st (p : String × StreamData) =>
    let s := ChatStream.from_dict now p.2
    upsertA st s.stream_id s
  { mgr with streams := mgr.db.foldl step mgr.streams }

/-! ## Failure-aware variants

The source wraps none of the store calls of `get_or_create_stream` or
`_save_stream` in `try`/`except`; a raising store call propagates.
These variants make the possible store failures explicit: `readFails`
makes `find_one` raise, `writeFails` makes `update_one` raise, and an
uncaught Python exception is the `Except.error` case. -/

/-- Model of `_save_stream` with a possibly-failing `update_one`.  When the
write raises, the line `stream.saved = True` is never reached, so the
stream stays dirty. -/
def saveStreamF (writeFails : Bool) (mgr : ChatManager) (s : ChatStream) :
    Except String (ChatStream × ChatManager) :=
  if s.saved then .ok (s, mgr)
  else if writeFails then .error "store write failed"
  else .ok ({ s with saved := true },
            { mgr with db := upsertA mgr.db s.stream_id s.to_dict,
                       writes := mgr.writes + 1 })

/-- Model of `get_or_create_stream` with possibly-failing store calls.  The
in-memory-hit branch touches the store not at all; the miss branches
run `find_one` and then `_save_stream`, and either failure propagates
to the caller. -/
def getOrCreateStreamF (now : Nat) (mgr : ChatManager)
    (readFails writeFails : Bool) (platform : String)
    (user_info : UserInfo) (group_info : Option GroupInfo) :
    Except String (ChatStream × ChatManager) :=
  let stream_id := generateStreamId platform user_info group_info
  match lookupA mgr.streams stream_id with
  | some stream0 =>
      let stream := hitUpdate now user_info group_info stream0
      .ok (stream, { mgr with streams := upsertA mgr.streams stream_id stream })
  | none =>
      if readFails then .error "store read failed"
      else
        let stream := match lookupA mgr.db stream_id with
          | some data => hitUpdate now user_info group_info (ChatStream.from_dict now data)
          | none =>
              ChatStream.init now stream_id platform (some user_info) group_info none
        let mgr1 := { mgr with streams := upsertA mgr.streams stream_id stream }
        match saveStreamF writeFails mgr1 stream with
        | .error e => .error e
        | .ok sm => .ok (sm.1, { sm.2 with streams := upsertA sm.2.streams stream_id sm.1 })

/-- Model of `ChatManager._initialize`: runs hydration under `try`/`except`, so
a hydration failure is logged and the state is left as it was. -/
def initRunF (now : Nat) (hydrateFails : Bool) (mgr : ChatManager) : ChatManager :=
  if hydrateFails then mgr else loadAllStreams now mgr

/-! ## Association-list lemmas -/

theorem lookupA_upsertA_self {β : Type} (l : List (String × β)) (k : String) (v : β) :
    lookupA (upsertA l k v) k = some v := by
  induction l with
  | nil => simp [upsertA, lookupA]
  | cons hd t ih =>
      obtain ⟨k', v'⟩ := hd
      by_cases hk : k' = k
      · simp [upsertA, hk, lookupA]
      · simp [upsertA, hk, lookupA, ih]

theorem lookupA_upsertA_ne {β : Type} (l : List (String × β)) (k k' : String) (v : β)
    (h : k ≠ k') : lookupA (upsertA l k v) k' = lookupA l k' := by
  induction l with
  | nil => simp [upsertA, lookupA, h]
  | cons hd t ih =>
      obtain ⟨k0, v0⟩ := hd
      by_cases hk : k0 = k
      · subst hk; simp [upsertA, lookupA, h]
      · simp [upsertA, hk, lookupA, ih]

theorem mem_upsertA {β : Type} (l : List (String × β)) (k : String) (v : β)
    (q : String × β) (hq : q ∈ upsertA l k v) : q = (k, v) ∨ q ∈ l := by
  induction l with
  | nil => simpa [upsertA] using hq
  | cons hd t ih =>
      obtain ⟨k0, v0⟩ := hd
      by_cases hk : k0 = k
      · simp [upsertA, hk] at hq
        rcases hq with h | h
        · left; simp [h]
        · right; simp [h]
      · simp [upsertA, hk] at hq
        rcases hq with h | h
        · right; simp [h]
        · rcases ih h with h' | h'
          · left; exact h'
          · right; simp [h']

theorem lookupA_eq_none_of_not_mem {β : Type} (l : List (String × β)) (k : String)
    (h : k ∉ l.map Prod.fst) : lookupA l k = none := by
  induction l with
  | nil => simp [lookupA]
  | cons hd t ih =>
      obtain ⟨k0, v0⟩ := hd
      have h1 : ¬k0 = k := fun he => h (by simp [he])
      have h2 : k ∉ t.map Prod.fst := fun hm => h (by simp [hm])
      simp [lookupA, h1, ih h2]

theorem keys_upsertA {β : Type} (l : List (String × β)) (k : String) (v : β) :
    (upsertA l k v).map Prod.fst =
      if k ∈ l.map Prod.fst then l.map Prod.fst else l.map Prod.fst ++ [k] := by
  induction l with
  | nil => simp [upsertA]
  | cons hd t ih =>
      obtain ⟨k0, v0⟩ := hd
      by_cases hk : k0 = k
      · simp [upsertA, hk]
      · have hk' : ¬k = k0 := fun he => hk he.symm
        by_cases hmem : k ∈ t.map Prod.fst
        · simp [upsertA, hk, ih, hmem, hk']
        · simp [upsertA, hk, ih, hmem, hk']

theorem nodup_keys_upsertA {β : Type} (l : List (String × β)) (k : String) (v : β)
    (h : (l.map Prod.fst).Nodup) : ((upsertA l k v).map Prod.fst).Nodup := by
  rw [keys_upsertA]
  by_cases hmem : k ∈ l.map Prod.fst
  · simpa [hmem] using h
  · rw [if_neg hmem, List.nodup_append]
    refine ⟨h, List.nodup_singleton _, ?_⟩
    intro a ha hb
    simp at hb
    subst hb
    exact hmem ha

/-! ## MD5 digest-shape lemmas -/

theorem leBytes_length (n x : Nat) : (leBytes n x).length = n := by
  induction n generalizing x with
  | zero => simp [leBytes]
  | succ m ih => simp [leBytes, ih]

theorem md5Bytes_length (msg : List Nat) : (md5Bytes msg).length = 16 := by
  simp [md5Bytes, leBytes_length]

theorem byteHex_flatten_length (l : List Nat) :
    ((l.map byteHex).flatten).length = 2 * l.length := by
  induction l with
  | nil => simp
  | cons b t ih => simp [byteHex, ih]; ring

theorem md5Hex_length (s : String) : (md5Hex s).length = 32 := by
  show ((md5Bytes (strBytes s)).map byteHex).flatten.length = 32
  rw [byteHex_flatten_length, md5Bytes_length]

/-- The sixteen lower-case hexadecimal characters. -/
def hexChars : List Char := "0123456789abcdef".data

theorem hexDigit_mem_hexChars (n : Nat) (h : n < 16) : hexDigit n ∈ hexChars := by
  interval_cases n <;> decide

theorem md5Hex_mem_hexChars (s : String) (c : Char) (hc : c ∈ (md5Hex s).data) :
    c ∈ hexChars := by
  have hc' : c ∈ ((md5Bytes (strBytes s)).map byteHex).flatten := hc
  rw [List.mem_flatten] at hc'
  obtain ⟨l, hl, hcl⟩ := hc'
  rw [List.mem_map] at hl
  obtain ⟨b, _, rfl⟩ := hl
  simp [byteHex] at hcl
  rcases hcl with rfl | rfl
  · exact hexDigit_mem_hexChars _ (Nat.mod_lt _ (by norm_num))
  · exact hexDigit_mem_hexChars _ (Nat.mod_lt _ (by norm_num))

/-! ## Behaviour lemmas for `get_or_create_stream` -/

@[simp] theorem hitUpdate_saved (now : Nat) (u : UserInfo) (g : Option GroupInfo)
    (s0 : ChatStream) : (hitUpdate now u g s0).saved = false := rfl

@[simp] theorem hitUpdate_user (now : Nat) (u : UserInfo) (g : Option GroupInfo)
    (s0 : ChatStream) : (hitUpdate now u g s0).user_info = some u := rfl

@[simp] theorem hitUpdate_group_some (now : Nat) (u : UserInfo) (gA : GroupInfo)
    (s0 : ChatStream) : (hitUpdate now u (some gA) s0).group_info = some gA := rfl

@[simp] theorem hitUpdate_group_none (now : Nat) (u : UserInfo)
    (s0 : ChatStream) : (hitUpdate now u none s0).group_info = s0.group_info := rfl

@[simp] theorem hitUpdate_create (now : Nat) (u : UserInfo) (g : Option GroupInfo)
    (s0 : ChatStream) : (hitUpdate now u g s0).create_time = s0.create_time := rfl

@[simp] theorem hitUpdate_last (now : Nat) (u : UserInfo) (g : Option GroupInfo)
    (s0 : ChatStream) : (hitUpdate now u g s0).last_active_time = now := rfl

@[simp] theorem hitUpdate_sid (now : Nat) (u : UserInfo) (g : Option GroupInfo)
    (s0 : ChatStream) : (hitUpdate now u g s0).stream_id = s0.stream_id := rfl

@[simp] theorem hitUpdate_platform (now : Nat) (u : UserInfo) (g : Option GroupInfo)
    (s0 : ChatStream) : (hitUpdate now u g s0).platform = s0.platform := rfl

@[simp] theorem init_saved (now : Nat) (sid p : String) (ui : Option UserInfo)
    (gi : Option GroupInfo) (d : Option StreamData) :
    (ChatStream.init now sid p ui gi d).saved = false := by
  simp [ChatStream.init]

@[simp] theorem init_user (now : Nat) (sid p : String) (ui : Option UserInfo)
    (gi : Option GroupInfo) (d : Option StreamData) :
    (ChatStream.init now sid p ui gi d).user_info = ui := by
  simp [ChatStream.init]

@[simp] theorem init_group (now : Nat) (sid p : String) (ui : Option UserInfo)
    (gi : Option GroupInfo) (d : Option StreamData) :
    (ChatStream.init now sid p ui gi d).group_info = gi := by
  simp [ChatStream.init]

@[simp] theorem init_sid (now : Nat) (sid p : String) (ui : Option UserInfo)
    (gi : Option GroupInfo) (d : Option StreamData) :
    (ChatStream.init now sid p ui gi d).stream_id = sid := by
  simp [ChatStream.init]

@[simp] theorem from_dict_sid (now : Nat) (d : StreamData) :
    (ChatStream.from_dict now d).stream_id = d.stream_id := rfl

@[simp] theorem from_dict_platform (now : Nat) (d : StreamData) :
    (ChatStream.from_dict now d).platform = d.platform := rfl

@[simp] theorem from_dict_user (now : Nat) (d : StreamData) :
    (ChatStream.from_dict now d).user_info = d.user_info := rfl

@[simp] theorem from_dict_group (now : Nat) (d : StreamData) :
    (ChatStream.from_dict now d).group_info = d.group_info := rfl

@[simp] theorem from_dict_create (now : Nat) (d : StreamData) :
    (ChatStream.from_dict now d).create_time = d.create_time.getD now := rfl

@[simp] theorem from_dict_last (now : Nat) (d : StreamData) :
    (ChatStream.from_dict now d).last_active_time =
      d.last_active_time.getD (d.create_time.getD now) := rfl

@[simp] theorem from_dict_saved (now : Nat) (d : StreamData) :
    (ChatStream.from_dict now d).saved = false := rfl

theorem lookupA_mem {β : Type} (l : List (String × β)) (k : String) (v : β)
    (h : lookupA l k = some v) : (k, v) ∈ l := by
  induction l with
  | nil => simp [lookupA] at h
  | cons hd t ih =>
      obtain ⟨k0, v0⟩ := hd
      by_cases hk : k0 = k
      · subst hk
        simp [lookupA] at h
        simp [h]
      · simp [lookupA, hk] at h
        simp [ih h]

theorem getOrCreate_lookup_self (now : Nat) (mgr : ChatManager) (p : String)
    (u : UserInfo) (g : Option GroupInfo) :
    lookupA (getOrCreateStream now mgr p u g).2.streams (generateStreamId p u g) =
      some (getOrCreateStream now mgr p u g).1 := by
  unfold getOrCreateStream
  cases hm : lookupA mgr.streams (generateStreamId p u g) with
  | some s0 => simp [hm, lookupA_upsertA_self]
  | none =>
      cases hd : lookupA mgr.db (generateStreamId p u g) with
      | some d =>
          simp [hm, hd, saveStream, ChatStream.update_active_time, lookupA_upsertA_self]
      | none =>
          simp [hm, hd, saveStream, ChatStream.init, lookupA_upsertA_self]

theorem getOrCreate_frame (now : Nat) (mgr : ChatManager) (p : String)
    (u : UserInfo) (g : Option GroupInfo) (k : String)
    (h : k ≠ generateStreamId p u g) :
    lookupA (getOrCreateStream now mgr p u g).2.streams k = lookupA mgr.streams k := by
  have h' : generateStreamId p u g ≠ k := fun he => h he.symm
  unfold getOrCreateStream
  cases hm : lookupA mgr.streams (generateStreamId p u g) with
  | some s0 => simp [hm, lookupA_upsertA_ne _ _ _ _ h']
  | none =>
      cases hd : lookupA mgr.db (generateStreamId p u g) with
      | some d =>
          simp [hm, hd, saveStream, ChatStream.update_active_time,
                lookupA_upsertA_ne _ _ _ _ h']
      | none =>
          simp [hm, hd, saveStream, ChatStream.init, lookupA_upsertA_ne _ _ _ _ h']

theorem getOrCreate_user (now : Nat) (mgr : ChatManager) (p : String)
    (u : UserInfo) (g : Option GroupInfo) :
    (getOrCreateStream now mgr p u g).1.user_info = some u := by
  unfold getOrCreateStream
  cases hm : lookupA mgr.streams (generateStreamId p u g) with
  | some s0 => simp [hm, ChatStream.update_active_time]
  | none =>
      cases hd : lookupA mgr.db (generateStreamId p u g) with
      | some d => simp [hm, hd, saveStream, ChatStream.update_active_time]
      | none => simp [hm, hd, saveStream, ChatStream.init]

theorem getOrCreate_group_some (now : Nat) (mgr : ChatManager) (p : String)
    (u : UserInfo) (gA : GroupInfo) :
    (getOrCreateStream now mgr p u (some gA)).1.group_info = some gA := by
  unfold getOrCreateStream
  cases hm : lookupA mgr.streams (generateStreamId p u (some gA)) with
  | some s0 => simp [hm, ChatStream.update_active_time]
  | none =>
      cases hd : lookupA mgr.db (generateStreamId p u (some gA)) with
      | some d => simp [hm, hd, saveStream, ChatStream.update_active_time]
      | none => simp [hm, hd, saveStream, ChatStream.init]

theorem getOrCreate_hit (now : Nat) (mgr : ChatManager) (p : String)
    (u : UserInfo) (g : Option GroupInfo) (s0 : ChatStream)
    (h : lookupA mgr.streams (generateStreamId p u g) = some s0) :
    getOrCreateStream now mgr p u g =
      (hitUpdate now u g s0,
       { mgr with streams := upsertA mgr.streams (generateStreamId p u g) (hitUpdate now u g s0) }) := by
  unfold getOrCreateStream
  simp [h]

/-! ## Concrete sample values -/

/-- A user with identifier 42. -/
def uEx : UserInfo := ⟨some (.int 42), none⟩

/-- A group with identifier 7. -/
def gEx : GroupInfo := ⟨.int 7, none⟩

/-- A user whose required user identifier is missing. -/
def uNoId : UserInfo := ⟨none, some "alice"⟩

/-- The stream id of `("qq", user 42, no group)`. -/
def sidEx : String := generateStreamId "qq" uEx none

/-- A clean (already persisted) record under `sidEx`. -/
def s0Ex : ChatStream := ⟨sidEx, "qq", some uEx, none, 5, 5, true⟩

/-- A manager state holding `s0Ex` both in memory and in the store. -/
def mgrHitEx : ChatManager := ⟨[(sidEx, s0Ex)], [(sidEx, s0Ex.to_dict)], 0⟩

/-- The empty manager state. -/
def mgrEmpty : ChatManager := ⟨[], [], 0⟩

theorem mgrHitEx_lookup : lookupA mgrHitEx.streams (generateStreamId "qq" uEx none) = some s0Ex := by
  simp [mgrHitEx, sidEx, lookupA]

/-! ## C1 -/

/-- C1 counterexample: a `get_or_create_stream` call that hits the
in-memory map issues no store write at all — the write count and the
stored collection are unchanged, and the returned record is left dirty
(`saved = false`), refuting "a write to the persistent store is issued
on every cache-hit call". -/
theorem c1_counterexample :
    (getOrCreateStream 9 mgrHitEx "qq" uEx none).2.writes = mgrHitEx.writes ∧
    (getOrCreateStream 9 mgrHitEx "qq" uEx none).2.db = mgrHitEx.db ∧
    (getOrCreateStream 9 mgrHitEx "qq" uEx none).1.saved = false := by
  rw [getOrCreate_hit 9 mgrHitEx "qq" uEx none s0Ex mgrHitEx_lookup]
  exact ⟨rfl, rfl, rfl⟩

/-- C1 (amended): on a cache hit, `get_or_create_stream` updates
`user_info` (always) and `group_info` (only when a group was
supplied), refreshes `last_active_time`, marks the record dirty and
returns it — but it does NOT persist: the store and the write count
are untouched, and the only state change is the in-memory entry. -/
theorem c1_theorem (now : Nat) (mgr : ChatManager) (p : String) (u : UserInfo)
    (g : Option GroupInfo) (s0 : ChatStream)
    (h : lookupA mgr.streams (generateStreamId p u g) = some s0) :
    (getOrCreateStream now mgr p u g).2.db = mgr.db ∧
    (getOrCreateStream now mgr p u g).2.writes = mgr.writes ∧
    (getOrCreateStream now mgr p u g).1.user_info = some u ∧
    (∀ gg, g = some gg → (getOrCreateStream now mgr p u g).1.group_info = some gg) ∧
    (g = none → (getOrCreateStream now mgr p u g).1.group_info = s0.group_info) ∧
    (getOrCreateStream now mgr p u g).1.last_active_time = now ∧
    (getOrCreateStream now mgr p u g).1.saved = false ∧
    (getOrCreateStream now mgr p u g).2.streams =
      upsertA mgr.streams (generateStreamId p u g) (getOrCreateStream now mgr p u g).1 := by
  rw [getOrCreate_hit now mgr p u g s0 h]
  refine ⟨rfl, rfl, by simp, ?_, ?_, by simp, rfl, rfl⟩
  · intro gg hg
    subst hg
    simp
  · intro hg
    subst hg
    simp

/-- C1 witness: the amended theorem applied to the concrete cache-hit
state `mgrHitEx`. -/
theorem c1_witness :
    lookupA mgrHitEx.streams (generateStreamId "qq" uEx none) = some s0Ex ∧
    (getOrCreateStream 9 mgrHitEx "qq" uEx none).2.db = mgrHitEx.db :=
  ⟨mgrHitEx_lookup, (c1_theorem 9 mgrHitEx "qq" uEx none s0Ex mgrHitEx_lookup).1⟩

/-! ## C2 -/

/-- C2 counterexample: on the empty state (a cache miss), a failing
store read makes `get_or_create_stream` raise to its caller instead of
treating the failure as "not found", and a failing store write makes
it raise instead of returning the record. -/
theorem c2_counterexample :
    getOrCreateStreamF 9 mgrEmpty true false "qq" uEx none = .error "store read failed" ∧
    getOrCreateStreamF 9 mgrEmpty false true "qq" uEx none = .error "store write failed" := by
  constructor <;> rfl

/-- C2 (amended): `get_or_create_stream` wraps no store call in
`try`/`except`: on a cache miss a store-read failure propagates to the
caller (no record is created), and a store-write failure during the
persist step propagates as well (no record is returned).  When no
store call fails the failure-aware operation agrees with the plain
one, and only the startup `_initialize` wrapper swallows a hydration
failure, leaving the state unchanged. -/
theorem c2_theorem :
    (∀ now mgr p u g, lookupA mgr.streams (generateStreamId p u g) = none →
        getOrCreateStreamF now mgr true false p u g = .error "store read failed") ∧
    (∀ now mgr p u g, lookupA mgr.streams (generateStreamId p u g) = none →
        getOrCreateStreamF now mgr false true p u g = .error "store write failed") ∧
    (∀ now mgr p u g,
        getOrCreateStreamF now mgr false false p u g = .ok (getOrCreateStream now mgr p u g)) ∧
    (∀ now mgr, initRunF now true mgr = mgr) := by
  refine ⟨?_, ?_, ?_, fun now mgr => rfl⟩
  · intro now mgr p u g h
    unfold getOrCreateStreamF
    simp [h]
  · intro now mgr p u g h
    unfold getOrCreateStreamF
    cases hd : lookupA mgr.db (generateStreamId p u g) with
    | some d => simp [h, hd, saveStreamF]
    | none => simp [h, hd, saveStreamF]
  · intro now mgr p u g
    unfold getOrCreateStreamF getOrCreateStream
    cases hm : lookupA mgr.streams (generateStreamId p u g) with
    | some s0 => simp [hm]
    | none =>
        cases hd : lookupA mgr.db (generateStreamId p u g) with
        | some d => simp [hm, hd, saveStreamF, saveStream]
        | none => simp [hm, hd, saveStreamF, saveStream]

/-- C2 witness: the amended theorem applied to the empty state. -/
theorem c2_witness :
    lookupA mgrEmpty.streams (generateStreamId "qq" uEx none) = none ∧
    getOrCreateStreamF 9 mgrEmpty true false "qq" uEx none = .error "store read failed" :=
  ⟨rfl, c2_theorem.1 9 mgrEmpty "qq" uEx none rfl⟩

/-! ## C3 -/

/-- C3: identity derivation is the pure function joining platform,
`str(user_id)` and the group component (or `"private"`) with `"_"` and
MD5-hashing the result; it is deterministic, its output has fixed
length 32 and consists of hexadecimal characters only, and the tuple
`("qq", user 42, no group)` derives the hash of `"qq_42_private"`. -/
theorem c3_theorem :
    (∀ p u g, generateStreamId p u g =
        md5Hex (String.intercalate "_" [p, pyStrOpt u.user_id, groupComponent g])) ∧
    (∀ p u g, (generateStreamId p u g).length = 32) ∧
    (∀ p u g c, c ∈ (generateStreamId p u g).data → c ∈ hexChars) ∧
    (∀ p₁ u₁ g₁ p₂ u₂ g₂, p₁ = p₂ → u₁ = u₂ → g₁ = g₂ →
        generateStreamId p₁ u₁ g₁ = generateStreamId p₂ u₂ g₂) ∧
    generateStreamId "qq" uEx none = md5Hex "qq_42_private" := by
  refine ⟨fun p u g => rfl, ?_, ?_, ?_, ?_⟩
  · intro p u g
    exact md5Hex_length (String.intercalate "_" [p, pyStrOpt u.user_id, groupComponent g])
  · intro p u g c hc
    exact md5Hex_mem_hexChars (String.intercalate "_" [p, pyStrOpt u.user_id, groupComponent g]) c hc
  · intro p₁ u₁ g₁ p₂ u₂ g₂ hp hu hg
    subst hp; subst hu; subst hg; rfl
  · exact congrArg md5Hex (by decide)

/-- C3 witness: determinism applied at the concrete tuple
`("qq", user 42, group 7)`. -/
theorem c3_witness :
    generateStreamId "qq" uEx (some gEx) = generateStreamId "qq" uEx (some gEx) :=
  c3_theorem.2.2.2.1 "qq" uEx (some gEx) "qq" uEx (some gEx) rfl rfl rfl

/-! ## C7 -/

/-- C7 counterexample: for an identity input whose user identifier is
missing, derivation does not fail and signals nothing: it silently
returns the ordinary 32-character identifier obtained by hashing
`"qq_None_private"` (Python's `str(None)`). -/
theorem c7_counterexample :
    generateStreamId "qq" uNoId none = md5Hex "qq_None_private" ∧
    (generateStreamId "qq" uNoId none).length = 32 :=
  ⟨congrArg md5Hex (by decide), md5Hex_length _⟩

/-- C7 (amended): `_generate_stream_id` performs no validation of the
user identifier: when it is missing, it is coerced to the string
`"None"` and a normal identifier is derived from
`platform_None_group`; no invalid-input condition is signalled. -/
theorem c7_theorem (p : String) (u : UserInfo) (g : Option GroupInfo)
    (h : u.user_id = none) :
    generateStreamId p u g =
      md5Hex (String.intercalate "_" [p, "None", groupComponent g]) := by
  simp [generateStreamId, h, pyStrOpt]

/-- C7 witness: the amended theorem at the concrete user `uNoId`. -/
theorem c7_witness :
    uNoId.user_id = none ∧
    generateStreamId "qq" uNoId none =
      md5Hex (String.intercalate "_" ["qq", "None", groupComponent none]) :=
  ⟨rfl, c7_theorem "qq" uNoId none rfl⟩

/-! ## C4 -/

/-- C4: after `get_or_create_stream(p, u, groupA)` followed by
`get_or_create_stream(p, u, no group)`, the record stored under the
first call's identifier still has `group_info = groupA` — an absent
group input never erases a previously known group context — and its
`user_info` was refreshed to the supplied user.  (When the two derived
identifiers differ the second call leaves the record untouched; if
they coincided, the `if group_info:` guard would keep the group.) -/
theorem c4_theorem (mgr : ChatManager) (now₁ now₂ : Nat) (p : String)
    (u : UserInfo) (gA : GroupInfo) :
    ∃ s, lookupA (getOrCreateStream now₂ (getOrCreateStream now₁ mgr p u (some gA)).2
           p u none).2.streams (generateStreamId p u (some gA)) = some s ∧
         s.group_info = some gA ∧ s.user_info = some u := by
  have h1 : lookupA (getOrCreateStream now₁ mgr p u (some gA)).2.streams
      (generateStreamId p u (some gA)) = some (getOrCreateStream now₁ mgr p u (some gA)).1 :=
    getOrCreate_lookup_self now₁ mgr p u (some gA)
  by_cases he : generateStreamId p u none = generateStreamId p u (some gA)
  · have h2 : lookupA (getOrCreateStream now₁ mgr p u (some gA)).2.streams
        (generateStreamId p u none) = some (getOrCreateStream now₁ mgr p u (some gA)).1 := by
      rw [he]; exact h1
    rw [getOrCreate_hit now₂ _ p u none _ h2]
    refine ⟨hitUpdate now₂ u none (getOrCreateStream now₁ mgr p u (some gA)).1, ?_, ?_, by simp⟩
    · rw [← he]
      exact lookupA_upsertA_self _ _ _
    · simpa using getOrCreate_group_some now₁ mgr p u gA
  · refine ⟨(getOrCreateStream now₁ mgr p u (some gA)).1, ?_, ?_, ?_⟩
    · rw [getOrCreate_frame now₂ _ p u none _ (fun hh => he hh.symm)]
      exact h1
    · exact getOrCreate_group_some now₁ mgr p u gA
    · exact getOrCreate_user now₁ mgr p u (some gA)

/-! ## C5 -/

/-- C5: under a non-decreasing clock (every timestamp already in the
state is at most `now`), `get_or_create_stream` preserves the
invariant `create_time ≤ last_active_time` for the returned record and
for every record in the resulting in-memory map; and on an existing
in-memory record it leaves `create_time` and `stream_id` unchanged
while `last_active_time` does not decrease. -/
theorem c5_theorem (now : Nat) (mgr : ChatManager) (p : String) (u : UserInfo)
    (g : Option GroupInfo)
    (hInv : ∀ q ∈ mgr.streams, (q.2).create_time ≤ (q.2).last_active_time)
    (hMem : ∀ q ∈ mgr.streams, (q.2).last_active_time ≤ now)
    (hDb : ∀ q ∈ mgr.db, ((q.2).create_time.getD now) ≤ now) :
    ((getOrCreateStream now mgr p u g).1.create_time ≤
       (getOrCreateStream now mgr p u g).1.last_active_time) ∧
    (∀ q ∈ (getOrCreateStream now mgr p u g).2.streams,
       (q.2).create_time ≤ (q.2).last_active_time) ∧
    (∀ s0, lookupA mgr.streams (generateStreamId p u g) = some s0 →
       (getOrCreateStream now mgr p u g).1.create_time = s0.create_time ∧
       s0.last_active_time ≤ (getOrCreateStream now mgr p u g).1.last_active_time ∧
       (getOrCreateStream now mgr p u g).1.stream_id = s0.stream_id) := by
  cases hm : lookupA mgr.streams (generateStreamId p u g) with
  | some s0 =>
      have hmem := lookupA_mem _ _ _ hm
      have h1 : s0.create_time ≤ s0.last_active_time := hInv _ hmem
      have h2 : s0.last_active_time ≤ now := hMem _ hmem
      rw [getOrCreate_hit now mgr p u g s0 hm]
      refine ⟨by simp; omega, ?_, ?_⟩
      · intro q hq
        rcases mem_upsertA _ _ _ _ hq with rfl | hq'
        · simp; omega
        · exact hInv _ hq'
      · intro s0' hs0'
        cases hs0'
        exact ⟨by simp, by simp; omega, by simp⟩
  | none =>
      refine ⟨?_, ?_, ?_⟩
      · unfold getOrCreateStream
        cases hd : lookupA mgr.db (generateStreamId p u g) with
        | some d =>
            have hdb : d.create_time.getD now ≤ now := hDb _ (lookupA_mem _ _ _ hd)
            simp [hm, hd, saveStream]
            omega
        | none => simp [hm, hd, saveStream, ChatStream.init]
      · intro q hq
        unfold getOrCreateStream at hq
        cases hd : lookupA mgr.db (generateStreamId p u g) with
        | some d =>
            have hdb : d.create_time.getD now ≤ now := hDb _ (lookupA_mem _ _ _ hd)
            simp [hm, hd, saveStream] at hq
            rcases mem_upsertA _ _ _ _ hq with rfl | hq'
            · simp; omega
            · rcases mem_upsertA _ _ _ _ hq' with rfl | hq''
              · simp; omega
              · exact hInv _ hq''
        | none =>
            simp [hm, hd, saveStream, ChatStream.init] at hq
            rcases mem_upsertA _ _ _ _ hq with rfl | hq'
            · simp [ChatStream.init]
            · rcases mem_upsertA _ _ _ _ hq' with rfl | hq''
              · simp [ChatStream.init]
              · exact hInv _ hq''
      · intro s0 hs0
        cases hs0

/-- C5 witness: the theorem applied to a concrete one-record state
with clock 9. -/
theorem c5_witness :
    (∀ q ∈ mgrHitEx.streams, (q.2).create_time ≤ (q.2).last_active_time) ∧
    (∀ q ∈ mgrHitEx.streams, (q.2).last_active_time ≤ 9) ∧
    (∀ q ∈ mgrHitEx.db, ((q.2).create_time.getD 9) ≤ 9) ∧
    ((getOrCreateStream 9 mgrHitEx "qq" uEx none).1.create_time ≤
       (getOrCreateStream 9 mgrHitEx "qq" uEx none).1.last_active_time) :=
  ⟨by simp [mgrHitEx, s0Ex], by simp [mgrHitEx, s0Ex], by simp [mgrHitEx, s0Ex, ChatStream.to_dict],
   (c5_theorem 9 mgrHitEx "qq" uEx none (by simp [mgrHitEx, s0Ex])
      (by simp [mgrHitEx, s0Ex]) (by simp [mgrHitEx, s0Ex, ChatStream.to_dict])).1⟩

/-! ## C6 -/

theorem upsertA_idem {β : Type} (l : List (String × β)) (k : String) (v : β) :
    upsertA (upsertA l k v) k v = upsertA l k v := by
  induction l with
  | nil => simp [upsertA]
  | cons hd t ih =>
      obtain ⟨k0, v0⟩ := hd
      by_cases hk : k0 = k
      · simp [upsertA, hk]
      · simp [upsertA, hk, ih]

/-- C6: `_save_stream` skips the store entirely on a non-dirty record;
on a dirty record it issues exactly one upsert of the serialized state
keyed by `stream_id` (idempotent: repeating the upsert changes
nothing) and only then marks the record clean; a failing write leaves
the record dirty and propagates; a freshly constructed record and a
record whose active time was just updated are dirty. -/
theorem c6_theorem :
    (∀ mgr s, s.saved = true → saveStream mgr s = (s, mgr)) ∧
    (∀ mgr s, s.saved = false →
        (saveStream mgr s).2.writes = mgr.writes + 1 ∧
        (saveStream mgr s).2.db = upsertA mgr.db s.stream_id s.to_dict ∧
        (saveStream mgr s).1 = { s with saved := true }) ∧
    (∀ (db : List (String × StreamData)) k v, upsertA (upsertA db k v) k v = upsertA db k v) ∧
    (∀ now sid p ui gi d, (ChatStream.init now sid p ui gi d).saved = false) ∧
    (∀ mgr s, s.saved = false → saveStreamF true mgr s = .error "store write failed") ∧
    (∀ now s, (ChatStream.update_active_time now s).saved = false) := by
  refine ⟨?_, ?_, fun db k v => upsertA_idem db k v, fun now sid p ui gi d => by simp,
          ?_, fun now s => rfl⟩
  · intro mgr s h
    simp [saveStream, h]
  · intro mgr s h
    simp [saveStream, h]
  · intro mgr s h
    simp [saveStreamF, h]

/-- C6 witness: the theorem applied to a clean record (persist is a
no-op) and to a dirty record with a failing write (stays an error). -/
theorem c6_witness :
    s0Ex.saved = true ∧ saveStream mgrEmpty s0Ex = (s0Ex, mgrEmpty) ∧
    (hitUpdate 9 uEx none s0Ex).saved = false ∧
    saveStreamF true mgrEmpty (hitUpdate 9 uEx none s0Ex) = .error "store write failed" :=
  ⟨rfl, c6_theorem.1 mgrEmpty s0Ex rfl, rfl,
   c6_theorem.2.2.2.2.1 mgrEmpty (hitUpdate 9 uEx none s0Ex) rfl⟩

/-! ## Hydration lemmas -/

/-- One hydration step, as folded by `load_all_streams`. -/
def loadStep (now : Nat) (st : List (String × ChatStream)) (p : String × StreamData) :
    List (String × ChatStream) :=
  upsertA st (ChatStream.from_dict now p.2).stream_id (ChatStream.from_dict now p.2)

theorem loadAll_streams_eq (now : Nat) (mgr : ChatManager) :
    (loadAllStreams now mgr).streams = mgr.db.foldl (loadStep now) mgr.streams := rfl

theorem load_foldl_lookup (now : Nat) (db : List (String × StreamData))
    (st0 : List (String × ChatStream)) (k : String)
    (hnd : (db.map Prod.fst).Nodup) (hwk : ∀ q ∈ db, (q.2).stream_id = q.1) :
    lookupA (db.foldl (loadStep now) st0) k =
      match lookupA db k with
      | some d => some (ChatStream.from_dict now d)
      | none => lookupA st0 k := by
  induction db generalizing st0 with
  | nil => simp [lookupA]
  | cons hd t ih =>
      obtain ⟨k0, d0⟩ := hd
      have hk0 : d0.stream_id = k0 := hwk (k0, d0) (by simp)
      simp only [List.map_cons, List.nodup_cons] at hnd
      rw [List.foldl_cons, ih _ hnd.2 (fun q hq => hwk q (List.mem_cons_of_mem _ hq))]
      by_cases hk : k0 = k
      · subst hk
        rw [lookupA_eq_none_of_not_mem t k0 hnd.1]
        simp [lookupA, loadStep, hk0, lookupA_upsertA_self]
      · cases hl : lookupA t k with
        | some d => simp [lookupA, hk, hl]
        | none =>
            simp [lookupA, hk, hl, loadStep]
            rw [hk0]
            exact lookupA_upsertA_ne _ _ _ _ hk

theorem mem_load_foldl (now : Nat) (db : List (String × StreamData))
    (st0 : List (String × ChatStream)) (q : String × ChatStream)
    (hq : q ∈ db.foldl (loadStep now) st0) :
    q ∈ st0 ∨ ∃ d, q.2 = ChatStream.from_dict now d := by
  induction db generalizing st0 with
  | nil => exact Or.inl hq
  | cons hd t ih =>
      rw [List.foldl_cons] at hq
      rcases ih _ hq with h | h
      · rcases mem_upsertA _ _ _ _ h with rfl | h'
        · exact Or.inr ⟨hd.2, rfl⟩
        · exact Or.inl h'
      · exact Or.inr h

/-! ## C8 -/

/-- C8: persisting a dirty record, clearing the in-memory map and
running hydration recovers a record whose `stream_id`, `platform`,
`user_info`, `group_info`, `create_time` and `last_active_time` all
equal the values before clearing (keys of the store are unique, as its
index enforces, and each stored document carries its own key). -/
theorem c8_theorem (now' : Nat) (mgr : ChatManager) (s : ChatStream)
    (hs : s.saved = false)
    (hnd : (mgr.db.map Prod.fst).Nodup)
    (hwk : ∀ q ∈ mgr.db, (q.2).stream_id = q.1) :
    ∃ t, lookupA (loadAllStreams now' { (saveStream mgr s).2 with streams := [] }).streams
           s.stream_id = some t ∧
         t.stream_id = s.stream_id ∧ t.platform = s.platform ∧
         t.user_info = s.user_info ∧ t.group_info = s.group_info ∧
         t.create_time = s.create_time ∧ t.last_active_time = s.last_active_time := by
  have hdb : (saveStream mgr s).2.db = upsertA mgr.db s.stream_id s.to_dict := by
    simp [saveStream, hs]
  refine ⟨ChatStream.from_dict now' s.to_dict, ?_, by simp [ChatStream.to_dict],
          by simp [ChatStream.to_dict], by simp [ChatStream.to_dict],
          by simp [ChatStream.to_dict], by simp [ChatStream.to_dict],
          by simp [ChatStream.to_dict]⟩
  rw [loadAll_streams_eq]
  have hnd' : (((saveStream mgr s).2.db).map Prod.fst).Nodup := by
    rw [hdb]; exact nodup_keys_upsertA _ _ _ hnd
  have hwk' : ∀ q ∈ (saveStream mgr s).2.db, (q.2).stream_id = q.1 := by
    rw [hdb]
    intro q hq
    rcases mem_upsertA _ _ _ _ hq with rfl | hq'
    · rfl
    · exact hwk q hq'
  rw [load_foldl_lookup now' _ _ _ hnd' hwk']
  rw [hdb, lookupA_upsertA_self]

/-- A dirty record used to exercise the round trip. -/
def sRt : ChatStream := ⟨"sid1", "qq", some uEx, some gEx, 3, 4, false⟩

/-- C8 witness: the round trip at the concrete record `sRt` over an
empty store. -/
theorem c8_witness :
    sRt.saved = false ∧
    ∃ t, lookupA (loadAllStreams 9 { (saveStream mgrEmpty sRt).2 with streams := [] }).streams
           sRt.stream_id = some t ∧
         t.stream_id = sRt.stream_id ∧ t.platform = sRt.platform ∧
         t.user_info = sRt.user_info ∧ t.group_info = sRt.group_info ∧
         t.create_time = sRt.create_time ∧ t.last_active_time = sRt.last_active_time :=
  ⟨rfl, c8_theorem 9 mgrEmpty sRt rfl (by simp [mgrEmpty]) (by simp [mgrEmpty])⟩

/-! ## C9 -/

theorem saveAllGo_writes (l : List (String × ChatStream))
    (db : List (String × StreamData)) (w : Nat)
    (h : ∀ q ∈ l, (q.2).saved = false) :
    (saveAllGo l db w).2.2 = w + l.length := by
  induction l generalizing db w with
  | nil => simp [saveAllGo]
  | cons hd t ih =>
      obtain ⟨k, s⟩ := hd
      have hs : s.saved = false := h (k, s) (by simp)
      rw [saveAllGo, if_neg (by simp [hs])]
      rw [ih _ _ (fun q hq => h q (List.mem_cons_of_mem _ hq))]
      simp [List.length_cons]
      omega

/-- C9: every construction of a `ChatStream` leaves `saved = False`,
including deserialization via `from_dict`; hence after hydrating into
an empty cache every loaded record is dirty, and the next
`_save_all_streams` issues one store write per hydrated record even
though their state matches the store. -/
theorem c9_theorem (now : Nat) (db : List (String × StreamData)) (w : Nat)
    (d : StreamData) :
    (ChatStream.from_dict now d).saved = false ∧
    ((loadAllStreams now ⟨[], db, w⟩).streams.all (fun q => !(q.2).saved)) = true ∧
    (saveAllStreams (loadAllStreams now ⟨[], db, w⟩)).writes =
      w + (loadAllStreams now ⟨[], db, w⟩).streams.length := by
  have hall : ∀ q ∈ (loadAllStreams now ⟨[], db, w⟩).streams, (q.2).saved = false := by
    intro q hq
    rw [loadAll_streams_eq] at hq
    rcases mem_load_foldl now db [] q hq with h | ⟨d', hd'⟩
    · cases h
    · rw [hd']; rfl
  refine ⟨rfl, ?_, ?_⟩
  · rw [List.all_eq_true]
    intro q hq
    simp [hall q hq]
  · exact saveAllGo_writes _ _ _ hall

/-! ## C10 -/

/-- C10: hydration overwrites the in-memory entry for any stream id
present in the store with the freshly deserialized stored version,
regardless of what the in-memory map held for that id before — so a
record updated in memory before hydration runs is replaced by its
persisted version. -/
theorem c10_theorem (now : Nat) (mgr : ChatManager) (k : String) (d : StreamData)
    (hd : lookupA mgr.db k = some d)
    (hnd : (mgr.db.map Prod.fst).Nodup)
    (hwk : ∀ q ∈ mgr.db, (q.2).stream_id = q.1) :
    lookupA (loadAllStreams now mgr).streams k = some (ChatStream.from_dict now d) := by
  rw [loadAll_streams_eq, load_foldl_lookup now _ _ _ hnd hwk, hd]

/-- A stale in-memory record under `"sid1"`. -/
def sOldEx : ChatStream := ⟨"sid1", "qq", some uEx, none, 1, 2, true⟩

/-- The stored document under `"sid1"`, different from `sOldEx`. -/
def dNewEx : StreamData := ⟨"sid1", "tg", some uNoId, some gEx, some 3, some 4⟩

/-- A state whose memory and store disagree about `"sid1"`. -/
def mgrLoadEx : ChatManager := ⟨[("sid1", sOldEx)], [("sid1", dNewEx)], 0⟩

/-- C10 witness: hydration replaces the in-memory record `sOldEx` with
the deserialized stored document `dNewEx`. -/
theorem c10_witness :
    lookupA mgrLoadEx.streams "sid1" = some sOldEx ∧
    lookupA mgrLoadEx.db "sid1" = some dNewEx ∧
    lookupA (loadAllStreams 9 mgrLoadEx).streams "sid1" =
      some (ChatStream.from_dict 9 dNewEx) :=
  ⟨by simp [mgrLoadEx, lookupA], by simp [mgrLoadEx, lookupA],
   c10_theorem 9 mgrLoadEx "sid1" dNewEx (by simp [mgrLoadEx, lookupA])
     (by simp [mgrLoadEx]) (by simp [mgrLoadEx, dNewEx])⟩

end ChatStreamModel
